import Mathlib

/-!
Verification of the input-normalization core of `login-mate1.0`
(`src/types/user.ts`): the progressive maskers `maskCep` and `maskCpf`,
and the CPF checksum validator `validateCPF` used by `registerSchema`.

The maskers are regex pipelines over JavaScript strings; we embed them as
functions on `List Char` (reading a `String` through `String.data`), with
each `replace` step modelled by a match predicate plus the corresponding
insertion, following first-match regex semantics.
-/

/-- JS `replace(/\D/g, '')`: remove every non-digit character. -/
def stripNonDigits (l : List Char) : List Char := l.filter Char.isDigit

/-- The digit sequence of a string: its characters with every non-digit
removed. -/
def digitsOf (s : String) : List Char := stripNonDigits s.data

/-- Match test of the anchored regex `^(\d{5})(\d)`: the first six
characters exist and are digits. -/
def cepMatch : List Char → Bool
  | a :: b :: c :: d :: e :: f :: _ =>
      a.isDigit && b.isDigit && c.isDigit && d.isDigit && e.isDigit && f.isDigit
  | _ => false

/-- JS `replace(/^(\d{5})(\d)/, '$1-$2')`: when the first six characters
are digits, insert a hyphen after the fifth. -/
def cepHyphen (l : List Char) : List Char :=
  if cepMatch l then l.take 5 ++ '-' :: l.drop 5 else l

/-- The source's `maskCep`: strip non-digits, hyphenate after the fifth
digit when a sixth is present, and `slice(0, 9)`. -/
def maskCep (s : String) : String :=
  String.mk ((cepHyphen (stripNonDigits s.data)).take 9)

/-- Match test of the anchored regex `^(\d{3})(\d)`: the first four
characters exist and are digits. -/
def dot1Match : List Char → Bool
  | a :: b :: c :: d :: _ => a.isDigit && b.isDigit && c.isDigit && d.isDigit
  | _ => false

/-- JS `replace(/^(\d{3})(\d)/, '$1.$2')`. -/
def cpfDot1 (l : List Char) : List Char :=
  if dot1Match l then l.take 3 ++ '.' :: l.drop 3 else l

/-- Match test of the anchored regex `^(\d{3})\.(\d{3})(\d)`. -/
def dot2Match : List Char → Bool
  | a :: b :: c :: d :: e :: f :: g :: h :: _ =>
      a.isDigit && b.isDigit && c.isDigit && d == '.' &&
        e.isDigit && f.isDigit && g.isDigit && h.isDigit
  | _ => false

/-- JS `replace(/^(\d{3})\.(\d{3})(\d)/, '$1.$2.$3')`: on a match, a
second dot is inserted after the seventh character. -/
def cpfDot2 (l : List Char) : List Char :=
  if dot2Match l then l.take 7 ++ '.' :: l.drop 7 else l

/-- Match test, at the head of the list, of the unanchored regex
`\.(\d{3})(\d)`. -/
def dashMatch : List Char → Bool
  | a :: b :: c :: d :: e :: _ =>
      a == '.' && b.isDigit && c.isDigit && d.isDigit && e.isDigit
  | _ => false

/-- JS `replace(/\.(\d{3})(\d)/, '.$1-$2')`: scan left to right for the
first match and insert a hyphen after the third digit following the dot. -/
def cpfDash (l : List Char) : List Char :=
  match l with
  | [] => []
  | c :: rest =>
      if dashMatch (c :: rest) then c :: rest.take 3 ++ '-' :: rest.drop 3
      else c :: cpfDash rest

/-- The source's `maskCpf`: strip non-digits, run the three separator
insertions, and `slice(0, 14)`. -/
def maskCpf (s : String) : String :=
  String.mk ((cpfDash (cpfDot2 (cpfDot1 (stripNonDigits s.data)))).take 14)

/-- Spec name for `maskCpf`. -/
def maskTaxId : String → String := maskCpf

/-- Spec name for `maskCep`. -/
def maskPostalCode : String → String := maskCep

/-- Numeric value of a digit character. -/
def digitVal (c : Char) : Nat := c.toNat - '0'.toNat

/-- Numeric digit sequence of a string. -/
def digitSeq (s : String) : List Nat := (digitsOf s).map digitVal

/-- Weighted sum of a digit list with descending weights starting at `w`. -/
def weightedSum : List Nat → Nat → Nat
  | [], _ => 0
  | d :: rest, w => d * w + weightedSum rest (w - 1)

/-- Expected modulo-11 check digit for a digit list `ds`: digit `i`
(1-indexed) is weighted `ds.length + 2 - i` (so a 9-digit list gets weights
10..2 and a 10-digit list gets 11..2); the remainder of the weighted sum
mod 11 maps to 0 when below 2, else to its complement to 11. -/
def expectedCheckDigit (ds : List Nat) : Nat :=
  let r := weightedSum ds (ds.length + 1) % 11
  if r < 2 then 0 else 11 - r

/-- All elements of the list are equal (to its head). -/
def allSame : List Nat → Bool
  | [] => true
  | d :: rest => rest.all (fun x => x == d)

/-- Modelled from the spec: the register schema refines the CPF field with
`validateCPF`, imported from `src/utils/validateCpf.ts`, a file not present
under `src/`. Per the spec's Checksum Validator contract: strip non-digit
characters; return `false` when the stripped length differs from 11 or when
all 11 digits are identical; otherwise the input is valid iff both
modulo-11 check digits (positions 10 and 11) match the expected values. -/
def validateCPF (s : String) : Bool :=
  let dn := digitSeq s
  dn.length == 11 && !allSame dn &&
    dn[9]? == some (expectedCheckDigit (dn.take 9)) &&
    dn[10]? == some (expectedCheckDigit (dn.take 10))

/-- Spec name for `validateCPF`. -/
def isValidTaxId : String → Bool := validateCPF

/-- The arithmetic checksum alone, stated from the spec's check digit
description: the digit sequence has exactly 11 digits, the digit at
position 10 equals the check digit computed from digits 1-9 with weights
10..2, and the digit at position 11 equals the check digit computed from
digits 1-10 with weights 11..2. -/
def checksumOk (dn : List Nat) : Prop :=
  dn.length = 11 ∧ dn[9]? = some (expectedCheckDigit (dn.take 9)) ∧
    dn[10]? = some (expectedCheckDigit (dn.take 10))

instance checksumOk_dec (dn : List Nat) : Decidable (checksumOk dn) :=
  inferInstanceAs (Decidable (dn.length = 11 ∧
    dn[9]? = some (expectedCheckDigit (dn.take 9)) ∧
    dn[10]? = some (expectedCheckDigit (dn.take 10))))

/-- Spec rendering of the masked tax ID: the digit sequence capped at 11
digits, with a dot after the 3rd and 6th digits once present and a hyphen
after the 9th once present. -/
def cpfFormat (d : List Char) : List Char :=
  if d.length ≤ 3 then d
  else if d.length ≤ 6 then d.take 3 ++ '.' :: d.drop 3
  else if d.length ≤ 9 then
    d.take 3 ++ '.' :: (d.drop 3).take 3 ++ '.' :: d.drop 6
  else
    d.take 3 ++ '.' :: (d.drop 3).take 3 ++ '.' :: (d.drop 6).take 3 ++
      '-' :: (d.drop 9).take 2

/-- Spec rendering of the masked postal code: insert a hyphen after digit 5
when 6 or more digits are present, then truncate to 9 characters. -/
def cepFormat (d : List Char) : List Char :=
  (if 6 ≤ d.length then d.take 5 ++ '-' :: d.drop 5 else d).take 9

/-- Characters that may appear in a masked output: digits and the two
separators. -/
def maskChar (c : Char) : Bool := c.isDigit || c == '.' || c == '-'

/-- Every separator ('.' or '-') in the list is immediately followed by a
digit; in particular the list does not end in a separator. -/
def sepsFollowed : List Char → Bool
  | [] => true
  | [c] => !(c == '.' || c == '-')
  | c :: d :: rest => (!(c == '.' || c == '-') || d.isDigit) && sepsFollowed (d :: rest)

theorem all_stripNonDigits (l : List Char) :
    (stripNonDigits l).all Char.isDigit = true := by
  simp only [stripNonDigits, List.all_eq_true]
  intro a ha
  exact (List.mem_filter.mp ha).2

theorem stripNonDigits_of_all {l : List Char} (h : l.all Char.isDigit = true) :
    stripNonDigits l = l := by
  simp only [List.all_eq_true] at h
  exact List.filter_eq_self.mpr h

theorem stripNonDigits_idem (l : List Char) :
    stripNonDigits (stripNonDigits l) = stripNonDigits l :=
  stripNonDigits_of_all (all_stripNonDigits l)

theorem dot_not_digit : ('.' : Char).isDigit = false := by decide

theorem dash_not_digit : ('-' : Char).isDigit = false := by decide

theorem digit_beq_dot {c : Char} (h : c.isDigit = true) : (c == '.') = false := by
  rw [beq_eq_false_iff_ne]
  rintro rfl
  exact absurd h (by decide)

theorem digit_beq_dash {c : Char} (h : c.isDigit = true) : (c == '-') = false := by
  rw [beq_eq_false_iff_ne]
  rintro rfl
  exact absurd h (by decide)

theorem cep_pipeline_eq {d : List Char} (h : d.all Char.isDigit = true) :
    (cepHyphen d).take 9 = cepFormat d := by
  rcases d with _ | ⟨a, _ | ⟨b, _ | ⟨c, _ | ⟨e, _ | ⟨f, _ | ⟨g, t⟩⟩⟩⟩⟩⟩ <;>
    simp_all [cepHyphen, cepMatch, cepFormat]

theorem cpf_pipeline_eq {d : List Char} (h : d.all Char.isDigit = true) :
    (cpfDash (cpfDot2 (cpfDot1 d))).take 14 = cpfFormat d := by
  rcases d with _ | ⟨a, _ | ⟨b, _ | ⟨c, _ | ⟨e, _ | ⟨f, _ | ⟨g, _ | ⟨p,
    _ | ⟨i, _ | ⟨j, _ | ⟨k, t⟩⟩⟩⟩⟩⟩⟩⟩⟩⟩ <;>
    simp_all [cpfDot1, cpfDot2, cpfDash, dot1Match, dot2Match, dashMatch,
      cpfFormat, digit_beq_dot, dot_not_digit]

theorem digit_eq_dash_false {c : Char} (h : c.isDigit = true) : (c = '-') = False := by
  apply eq_false
  rintro rfl
  exact absurd h (by decide)

theorem dash_eq_digit_false {c : Char} (h : c.isDigit = true) : ('-' = c) = False := by
  apply eq_false
  rintro rfl
  exact absurd h (by decide)

theorem digit_eq_dot_false {c : Char} (h : c.isDigit = true) : (c = '.') = False := by
  apply eq_false
  rintro rfl
  exact absurd h (by decide)

theorem dot_eq_digit_false {c : Char} (h : c.isDigit = true) : ('.' = c) = False := by
  apply eq_false
  rintro rfl
  exact absurd h (by decide)

theorem digitVal_lt {c : Char} (h : c.isDigit = true) : digitVal c < 10 := by
  simp only [Char.isDigit, Bool.and_eq_true, decide_eq_true_eq] at h
  have h2 : c.val.toNat ≤ 57 :=
    UInt32.toNat_le_of_le (by decide) h.2
  have h0 : ('0' : Char).val.toNat = 48 := by decide
  simp only [digitVal, Char.toNat, h0]
  omega

theorem strip_cpfFormat {d : List Char} (h : d.all Char.isDigit = true) :
    stripNonDigits (cpfFormat d) = d.take 11 := by
  rcases d with _ | ⟨a, _ | ⟨b, _ | ⟨c, _ | ⟨e, _ | ⟨f, _ | ⟨g, _ | ⟨p,
    _ | ⟨i, _ | ⟨j, _ | ⟨k, _ | ⟨m, r⟩⟩⟩⟩⟩⟩⟩⟩⟩⟩⟩ <;>
    simp_all [cpfFormat, stripNonDigits, List.filter_cons, dot_not_digit,
      dash_not_digit]

theorem strip_cepFormat {d : List Char} (h : d.all Char.isDigit = true) :
    stripNonDigits (cepFormat d) = d.take 8 := by
  rcases d with _ | ⟨a, _ | ⟨b, _ | ⟨c, _ | ⟨e, _ | ⟨f, _ | ⟨g, _ | ⟨p,
    _ | ⟨i, r⟩⟩⟩⟩⟩⟩⟩⟩ <;>
    simp_all [cepFormat, stripNonDigits, List.filter_cons, dash_not_digit]

theorem cpfFormat_take11 (d : List Char) : cpfFormat (d.take 11) = cpfFormat d := by
  by_cases h : d.length ≤ 11
  · rw [List.take_of_length_le h]
  · push_neg at h
    have hm : min 11 d.length = 11 := Nat.min_eq_left (by omega)
    simp only [cpfFormat, List.length_take, hm, List.take_take, List.drop_take]
    norm_num
    rw [if_neg (by omega), if_neg (by omega), if_neg (by omega)]

theorem cepFormat_take8 (d : List Char) : cepFormat (d.take 8) = cepFormat d := by
  by_cases h : d.length ≤ 8
  · rw [List.take_of_length_le h]
  · push_neg at h
    have hm : min 8 d.length = 8 := Nat.min_eq_left (by omega)
    simp only [cepFormat, List.length_take, hm, List.take_take, List.drop_take]
    norm_num
    rw [if_pos (by omega : 6 ≤ d.length)]
    have h5 : (List.take 5 d).length = 5 := by
      simp only [List.length_take]
      omega
    rw [List.take_append_eq_append_take, List.take_append_eq_append_take, h5]
    norm_num [List.take_take]

theorem maskCep_eq_format (s : String) :
    maskCep s = String.mk (cepFormat (digitsOf s)) := by
  rw [maskCep, cep_pipeline_eq (all_stripNonDigits s.data)]
  rfl

theorem maskCpf_eq_format (s : String) :
    maskCpf s = String.mk (cpfFormat (digitsOf s)) := by
  rw [maskCpf, cpf_pipeline_eq (all_stripNonDigits s.data)]
  rfl

example : maskCpf "11144477735" = "111.444.777-35" := by decide
example : maskCep "01310930" = "01310-930" := by decide
example : maskCep "0131" = "0131" := by decide
example : validateCPF "111.444.777-35" = true := by decide
example : validateCPF "123.456.789-00" = false := by decide
example : validateCPF "111.111.111-11" = false := by decide
example : validateCPF "abc" = false := by decide
example : validateCPF "" = false := by decide
example : maskCpf "111444777359" = "111.444.777-35" := by decide
example : maskCpf "1114447" = "111.444.7" := by decide
example : maskCpf "111444" = "111.444" := by decide

/-- C1: for every string `s`, stripping the separator characters from
`maskTaxId s` (the source's `maskCpf`) yields exactly the first 11 digits
of `s` with all non-digit characters removed (all of them when fewer than
11 exist): masking never drops, reorders, or invents digits. -/
theorem maskTaxId_digits_preserved (s : String) :
    stripNonDigits (maskTaxId s).data = (digitsOf s).take 11 := by
  show stripNonDigits (maskCpf s).data = (digitsOf s).take 11
  rw [maskCpf_eq_format]
  exact strip_cpfFormat (all_stripNonDigits s.data)

/-- C3: both masking functions are idempotent on their own output:
`maskTaxId (maskTaxId s) = maskTaxId s` and
`maskPostalCode (maskPostalCode s) = maskPostalCode s`. -/
theorem mask_idempotent (s : String) :
    maskTaxId (maskTaxId s) = maskTaxId s ∧
    maskPostalCode (maskPostalCode s) = maskPostalCode s := by
  constructor
  · show maskCpf (maskCpf s) = maskCpf s
    rw [maskCpf_eq_format s, maskCpf_eq_format (String.mk (cpfFormat (digitsOf s)))]
    have h : digitsOf (String.mk (cpfFormat (digitsOf s))) = (digitsOf s).take 11 :=
      strip_cpfFormat (all_stripNonDigits s.data)
    rw [h, cpfFormat_take11]
  · show maskCep (maskCep s) = maskCep s
    rw [maskCep_eq_format s, maskCep_eq_format (String.mk (cepFormat (digitsOf s)))]
    have h : digitsOf (String.mk (cepFormat (digitsOf s))) = (digitsOf s).take 8 :=
      strip_cepFormat (all_stripNonDigits s.data)
    rw [h, cepFormat_take8]

/-- C9: both masking functions depend only on the digit sequence of their
input: masking the stripped digit sequence of `s` gives the same output as
masking `s` itself, so interleaved punctuation, whitespace, or letters
never change the masked output. -/
theorem mask_depends_on_digits (s : String) :
    maskCpf (String.mk (digitsOf s)) = maskCpf s ∧
    maskCep (String.mk (digitsOf s)) = maskCep s := by
  constructor
  · show String.mk _ = String.mk _
    rw [show (String.mk (digitsOf s)).data = stripNonDigits s.data from rfl,
      stripNonDigits_idem]
  · show String.mk _ = String.mk _
    rw [show (String.mk (digitsOf s)).data = stripNonDigits s.data from rfl,
      stripNonDigits_idem]

/-- C7: `maskTaxId` renders the digit sequence capped at 11 digits
progressively as NNN.NNN.NNN-NN (dot after the 3rd and 6th digit once
present, hyphen after the 9th once present, per `cpfFormat`), the output
never exceeds 14 characters, and `maskTaxId "11144477735"` is
`"111.444.777-35"`. -/
theorem maskTaxId_progressive :
    (∀ s, maskTaxId s = String.mk (cpfFormat (digitsOf s)) ∧
      (maskTaxId s).length ≤ 14) ∧
    maskTaxId "11144477735" = "111.444.777-35" := by
  refine ⟨fun s => ⟨maskCpf_eq_format s, ?_⟩, by decide⟩
  show ((cpfDash (cpfDot2 (cpfDot1 (stripNonDigits s.data)))).take 14).length ≤ 14
  simp [List.length_take]

/-- C8: `maskPostalCode` strips all non-digits, inserts a hyphen after
digit 5 exactly when 6 or more digits are present, then truncates to 9
characters (`cepFormat`); in particular `maskPostalCode "01310930"` is
`"01310-930"` and `maskPostalCode "0131"` is `"0131"`. -/
theorem maskPostalCode_renders :
    (∀ s, maskPostalCode s = String.mk (cepFormat (digitsOf s))) ∧
    maskPostalCode "01310930" = "01310-930" ∧
    maskPostalCode "0131" = "0131" :=
  ⟨maskCep_eq_format, by decide, by decide⟩

theorem cepFormat_shape {d : List Char} (h : d.all Char.isDigit = true) :
    (cepFormat d).length ≤ 9 ∧ (cepFormat d).count '-' ≤ 1 ∧
      ('-' ∈ cepFormat d → (cepFormat d)[5]? = some '-') := by
  rcases d with _ | ⟨a, _ | ⟨b, _ | ⟨c, _ | ⟨e, _ | ⟨f, _ | ⟨g, _ | ⟨p,
    _ | ⟨i, r⟩⟩⟩⟩⟩⟩⟩⟩ <;>
    simp_all [cepFormat, List.count_cons, digit_beq_dash, dash_eq_digit_false]

/-- C4: for every string `s`, `maskPostalCode s` has length at most 9,
contains at most one hyphen which (when present) sits at index 5, and its
digits are the first at most 8 digits of `s`. -/
theorem maskPostalCode_shape (s : String) :
    (maskPostalCode s).length ≤ 9 ∧
    (maskPostalCode s).data.count '-' ≤ 1 ∧
    ('-' ∈ (maskPostalCode s).data → (maskPostalCode s).data[5]? = some '-') ∧
    stripNonDigits (maskPostalCode s).data = (digitsOf s).take 8 := by
  have hm : maskPostalCode s = String.mk (cepFormat (digitsOf s)) :=
    maskCep_eq_format s
  rw [hm]
  obtain ⟨h1, h2, h3⟩ := @cepFormat_shape (digitsOf s) (all_stripNonDigits s.data)
  exact ⟨h1, h2, h3, strip_cepFormat (all_stripNonDigits s.data)⟩

/-- C4 witness: on the concrete input "01310930" the hyphen is present and
does sit at index 5. -/
theorem maskPostalCode_shape_witness :
    '-' ∈ (maskPostalCode "01310930").data ∧
    (maskPostalCode "01310930").data[5]? = some '-' :=
  ⟨by decide, (maskPostalCode_shape "01310930").2.2.1 (by decide)⟩

theorem cpfFormat_charset {d : List Char} (h : d.all Char.isDigit = true) :
    ((cpfFormat d).all maskChar && sepsFollowed (cpfFormat d)) = true := by
  rcases d with _ | ⟨a, _ | ⟨b, _ | ⟨c, _ | ⟨e, _ | ⟨f, _ | ⟨g, _ | ⟨p,
    _ | ⟨i, _ | ⟨j, _ | ⟨k, _ | ⟨m, r⟩⟩⟩⟩⟩⟩⟩⟩⟩⟩⟩ <;>
    simp_all [cpfFormat, maskChar, sepsFollowed, digit_beq_dot, digit_beq_dash]

theorem cepFormat_charset {d : List Char} (h : d.all Char.isDigit = true) :
    ((cepFormat d).all maskChar && sepsFollowed (cepFormat d)) = true := by
  rcases d with _ | ⟨a, _ | ⟨b, _ | ⟨c, _ | ⟨e, _ | ⟨f, _ | ⟨g, _ | ⟨p,
    _ | ⟨i, r⟩⟩⟩⟩⟩⟩⟩⟩ <;>
    simp_all [cepFormat, maskChar, sepsFollowed, digit_beq_dot, digit_beq_dash]

/-- C10: the outputs of `maskCpf` and `maskCep` contain only digits, dots
and hyphens, and every separator is immediately followed by a digit (so the
output never ends in a separator). -/
theorem mask_output_charset (s : String) :
    ((maskCpf s).data.all maskChar && sepsFollowed (maskCpf s).data) = true ∧
    ((maskCep s).data.all maskChar && sepsFollowed (maskCep s).data) = true := by
  rw [maskCpf_eq_format, maskCep_eq_format]
  exact ⟨@cpfFormat_charset (digitsOf s) (all_stripNonDigits s.data),
    @cepFormat_charset (digitsOf s) (all_stripNonDigits s.data)⟩

/-- C2 counterexample: on "11111111111" the arithmetic checksum holds (both
check digits match) yet `validateCPF` returns `false`, so "valid iff the
checksum passes" fails as stated. -/
theorem validateCPF_iff_checksum_cex :
    ¬ (validateCPF "11111111111" = true ↔ checksumOk (digitSeq "11111111111")) := by
  decide

/-- C2 (amended): `validateCPF s` is `true` iff the digit sequence of `s`
passes the arithmetic checksum (11 digits, both modulo-11 check digits
match) and is not a single repeated digit; in particular
`validateCPF "111.444.777-35" = true` and
`validateCPF "123.456.789-00" = false`. -/
theorem validateCPF_iff_checksum :
    (∀ s, validateCPF s = true ↔
      checksumOk (digitSeq s) ∧ allSame (digitSeq s) = false) ∧
    validateCPF "111.444.777-35" = true ∧
    validateCPF "123.456.789-00" = false := by
  refine ⟨fun s => ?_, by decide, by decide⟩
  simp only [validateCPF, checksumOk, Bool.and_eq_true, beq_iff_eq,
    Bool.not_eq_true']
  tauto

theorem checksumOk_replicate : ∀ v < 10, checksumOk (List.replicate 11 v) := by
  decide

theorem digitSeq_lt {s : String} {x : Nat} (hx : x ∈ digitSeq s) : x < 10 := by
  obtain ⟨c, hc, hcv⟩ := List.mem_map.mp hx
  have hd : c.isDigit = true := (List.mem_filter.mp hc).2
  rw [← hcv]
  exact digitVal_lt hd

/-- C5: `validateCPF` returns `false` on every input whose stripped digit
sequence is 11 identical digits, even though such sequences satisfy the
arithmetic checksum. -/
theorem validateCPF_repeated (s : String)
    (h1 : (digitSeq s).length = 11) (h2 : allSame (digitSeq s) = true) :
    validateCPF s = false ∧ checksumOk (digitSeq s) := by
  constructor
  · simp [validateCPF, h2]
  · obtain ⟨x, rest, hx⟩ : ∃ x rest, digitSeq s = x :: rest := by
      cases hd : digitSeq s with
      | nil => rw [hd] at h1; simp at h1
      | cons x rest => exact ⟨x, rest, rfl⟩
    have hmem : ∀ b ∈ digitSeq s, b = x := by
      intro b hb
      rw [hx] at hb h2
      simp only [allSame, List.all_eq_true, beq_iff_eq] at h2
      rcases List.mem_cons.mp hb with hb | hb
      · exact hb
      · exact h2 b hb
    have hrep : digitSeq s = List.replicate 11 x :=
      List.eq_replicate_iff.mpr ⟨h1, hmem⟩
    have hx10 : x < 10 := by
      apply digitSeq_lt
      rw [hx]
      exact List.mem_cons_self x rest
    rw [hrep]
    exact checksumOk_replicate x hx10

/-- C5 witness: the masked repeated-digit input "111.111.111-11" has 11
identical digits and is rejected. -/
theorem validateCPF_repeated_witness :
    (digitSeq "111.111.111-11").length = 11 ∧
    allSame (digitSeq "111.111.111-11") = true ∧
    validateCPF "111.111.111-11" = false :=
  ⟨by decide, by decide,
    (validateCPF_repeated "111.111.111-11" (by decide) (by decide)).1⟩

/-- C6: `validateCPF` is total and returns the value `false` (rather than
failing) on every input whose digit sequence does not have exactly 11
digits, including "abc" and the empty string; and a raw form holding the
same digit sequence validates identically to the original input. -/
theorem validateCPF_total :
    (∀ s, (digitSeq s).length ≠ 11 → validateCPF s = false) ∧
    validateCPF "abc" = false ∧ validateCPF "" = false ∧
    (∀ s, validateCPF (String.mk (digitsOf s)) = validateCPF s) := by
  refine ⟨fun s h => ?_, by decide, by decide, fun s => ?_⟩
  · have hb : ((digitSeq s).length == 11) = false := beq_eq_false_iff_ne.mpr h
    simp [validateCPF, hb]
  · have hd : digitSeq (String.mk (digitsOf s)) = digitSeq s := by
      simp only [digitSeq, digitsOf]
      rw [stripNonDigits_idem]
    simp only [validateCPF, hd]

/-- C6 witness: "abc" has a digit sequence of length 0, and the theorem's
first component rejects it. -/
theorem validateCPF_total_witness :
    (digitSeq "abc").length ≠ 11 ∧ validateCPF "abc" = false :=
  ⟨by decide, validateCPF_total.1 "abc" (by decide)⟩
